import Mathlib

/-!
Shallow embedding of the stock-state reconciliation engine of the
product-brand inventory monitor.

The program watches the products of configured brands, reduces each
brand's product list to a stock snapshot, compares the snapshot with the
brand's last recorded notification state and sends a depletion or
restock alert exactly on a transition.  The embedding below translates
the JavaScript sources:

* `checkBrandStock` — the stock aggregator (`src/server.js`,
  `checkBrandStock`): per product, variant quantities are summed with a
  missing quantity read as 0, and the product counts as out of stock
  when the sum is at most 0.
* `brandStep` — the per-brand body of the `POST /webhook/inventory`
  handler (`src/server.js`): the two guarded alert branches and the
  state updates they perform.
* `monitorBrandStep` — the per-brand body of `checkAllBrands`
  (`src/shopify-api-only-monitor.js`), which records the fresh state
  unconditionally and skips brands whose fetch found no products.
* `webhookPass` — the webhook handler's brand loop together with its
  surrounding try/catch: a fetch failure ends the whole loop.
* `verifyWebhook` — the raw-body HMAC verifier (`src/unnamed/part_001`),
  with the HMAC-SHA256/base64 digest abstracted as a function parameter
  and Node's `crypto.timingSafeEqual` (which throws on a length
  mismatch) embedded as `timingSafeEqual`.
* `getProductsForBrand` — the paginated catalog fetcher
  (`src/server.js`), with the `Link` header regex
  `/<([^>]+)>;\s*rel="next"/` embedded as `findNextLink` and the page
  sequence the upstream would serve given as a list.
* `sendEmail` — the SMTP notifier with its timeout race
  (`src/server.js`), embedded as a total function on the transport's
  outcome.
-/

namespace BrandMonitor

/-- A variant's `inventory_quantity`; `none` models a missing field.
`variant.inventory_quantity || 0` in the source reads a missing (or
zero) quantity as 0. -/
def qtyOrZero : Option Int → Int
  | none => 0
  | some q => q

/-- A product is, for aggregation purposes, the list of its variants'
inventory quantities. -/
structure Product where
  variants : List (Option Int)
deriving DecidableEq

/-- The inner loop of `checkBrandStock`: `productTotalStock` sums
`variant.inventory_quantity || 0` over the product's variants. -/
def productTotalStock (p : Product) : Int :=
  p.variants.foldl (fun acc v => acc + qtyOrZero v) 0

/-- The snapshot `checkBrandStock` returns:
`{ allOOS, totalProducts, oosProducts, inStockProducts }`. -/
structure StockStatus where
  allOOS : Bool
  totalProducts : Nat
  oosProducts : Nat
  inStockProducts : Nat
deriving DecidableEq

/-- The counting loop of `checkBrandStock`: one increment per product
whose summed stock is at most 0. -/
def countOOS (products : List Product) : Nat :=
  products.foldl (fun n p => if productTotalStock p ≤ 0 then n + 1 else n) 0

/-- `checkBrandStock` (src/server.js): an empty product list yields the
fixed all-false snapshot, otherwise `allOOS` compares the out-of-stock
count with the total and `inStockProducts` is the difference. -/
def checkBrandStock (products : List Product) : StockStatus :=
  if products.length = 0 then
    { allOOS := false, totalProducts := 0, oosProducts := 0, inStockProducts := 0 }
  else
    let totalProducts := products.length
    let oosProducts := countOOS products
    { allOOS := decide (totalProducts = oosProducts)
      totalProducts := totalProducts
      oosProducts := oosProducts
      inStockProducts := totalProducts - oosProducts }

/-- The values stored in `lastNotificationState` ('OOS' / 'IN_STOCK');
an absent entry is `none`. -/
inductive NotifState
  | OOS
  | IN_STOCK
deriving DecidableEq

/-- The two kinds of alert email the handler sends. -/
inductive Alert
  | depletion
  | restock
deriving DecidableEq

/-- The per-brand body of the `POST /webhook/inventory` handler
(src/server.js): depletion alert when `stockStatus.allOOS` holds and the
last state is not 'OOS', restock alert when some product is in stock and
the last state is 'OOS'; only these branches assign the stored state. -/
def brandStep (stockStatus : StockStatus) (lastState : Option NotifState) :
    Option NotifState × List Alert :=
  if stockStatus.allOOS = true ∧ lastState ≠ some NotifState.OOS then
    (some NotifState.OOS, [Alert.depletion])
  else if stockStatus.allOOS = false ∧ 0 < stockStatus.inStockProducts ∧
      lastState = some NotifState.OOS then
    (some NotifState.IN_STOCK, [Alert.restock])
  else
    (lastState, [])

/-- The notification state a snapshot implies: 'OOS' when every product
is out of stock, 'IN_STOCK' otherwise. -/
def impliedState (s : StockStatus) : NotifState :=
  if s.allOOS then NotifState.OOS else NotifState.IN_STOCK

/-- The per-brand body of `checkAllBrands`
(src/shopify-api-only-monitor.js): the monitor's `checkBrandStock`
returns null for an empty product list, which `checkAllBrands` skips
(`continue`, leaving no entry in the freshly built state); otherwise the
fresh state entry is recorded unconditionally before the alert
branches, and the restock branch has no in-stock-count guard. -/
def monitorBrandStep (stockStatus : Option StockStatus) (prev : Option NotifState) :
    Option NotifState × List Alert :=
  match stockStatus with
  | none => (none, [])
  | some s =>
    let entry := if s.allOOS then NotifState.OOS else NotifState.IN_STOCK
    if s.allOOS = true ∧ prev ≠ some NotifState.OOS then
      (some entry, [Alert.depletion])
    else if s.allOOS = false ∧ prev = some NotifState.OOS then
      (some entry, [Alert.restock])
    else
      (some entry, [])

/-- The webhook handler's brand loop together with its surrounding
try/catch (src/server.js lines 207-235): brands are identified by
numbers, `fetches` gives each brand's fetch-and-aggregate outcome, and a
thrown upstream error ends the whole loop, leaving the state map as the
already-processed brands left it. -/
def webhookPass (fetches : Nat → Except Nat (List Product)) :
    List Nat → (Nat → Option NotifState) →
      ((Nat → Option NotifState) × List (Nat × Alert))
  | [], state => (state, [])
  | b :: rest, state =>
    match fetches b with
    | Except.error _ => (state, [])
    | Except.ok products =>
      let step := brandStep (checkBrandStock products) (state b)
      let state2 : Nat → Option NotifState := fun x => if x = b then step.1 else state x
      let restRun := webhookPass fetches rest state2
      (restRun.1, step.2.map (fun a => (b, a)) ++ restRun.2)

/-- A product whose single variant has quantity 0, hence out of stock. -/
def oosProduct : Product := Product.mk [some 0]

/-- A fetch environment in which brand 1's fetch fails with HTTP status
500 and every other brand has one out-of-stock product. -/
def fetchesCex : Nat → Except Nat (List Product) := fun b =>
  if b = 1 then Except.error 500 else Except.ok [oosProduct]

/-- Node's `crypto.timingSafeEqual` on byte sequences: it throws
(`Except.error`) when the lengths differ and otherwise reports whether
the sequences are equal. -/
def timingSafeEqual (a b : List Char) : Except Unit Bool :=
  if a.length = b.length then Except.ok (decide (a = b)) else Except.error ()

/-- `verifyWebhook` (src/unnamed/part_001): false when the
`X-Shopify-Hmac-Sha256` header is absent or no raw body was captured;
otherwise the base64 HMAC-SHA256 digest of the exact raw body bytes —
abstracted here as the parameter `hmacBase64` — is compared to the
claimed signature with `timingSafeEqual`, whose length-mismatch throw is
caught and turned into false. -/
def verifyWebhook (hmacBase64 : String → List Nat → String) (secret : String)
    (hmacHeader : Option String) (rawBody : Option (List Nat)) : Bool :=
  match hmacHeader with
  | none => false
  | some hmac =>
    match rawBody with
    | none => false
    | some raw =>
      let generatedHash := hmacBase64 secret raw
      match timingSafeEqual generatedHash.data hmac.data with
      | Except.ok r => r
      | Except.error _ => false

/-- Whitespace for the `\s*` of the `Link` header regex. -/
def isSpaceChar (c : Char) : Bool :=
  c = ' ' || c = '\t' || c = '\n' || c = '\r' || c = '\x0b' || c = '\x0c'

/-- The literal tail `rel="next"` of the `Link` header regex. -/
def relNextLit : List Char :=
  ['r', 'e', 'l', '=', '\"', 'n', 'e', 'x', 't', '\"']

/-- Match a literal character sequence at the front of the input,
returning the remainder on success. -/
def matchLit : List Char → List Char → Option (List Char)
  | [], rest => some rest
  | _ :: _, [] => none
  | l :: ls, c :: cs => if c = l then matchLit ls cs else none

/-- The regex `/<([^>]+)>;\s*rel="next"/` anchored at the start of the
input: `<`, a nonempty run of non-`>` characters (the capture), `>`,
`;`, optional whitespace, then the literal `rel="next"`. -/
def matchNextAt (l : List Char) : Option (List Char) :=
  match l with
  | '<' :: rest =>
    let capture := rest.takeWhile (fun c => c ≠ '>')
    let after := rest.dropWhile (fun c => c ≠ '>')
    if capture.isEmpty then none
    else
      match after with
      | '>' :: ';' :: rest2 =>
        match matchLit relNextLit (rest2.dropWhile isSpaceChar) with
        | some _ => some capture
        | none => none
      | _ => none
  | _ => none

/-- `linkHeader.match(/<([^>]+)>;\s*rel="next"/)`: the leftmost match's
capture, scanning the header left to right. -/
def findNextLink : List Char → Option (List Char)
  | [] => none
  | c :: rest =>
    match matchNextAt (c :: rest) with
    | some cap => some cap
    | none => findNextLink rest

/-- The pagination check of `getProductsForBrand`: an absent `Link`
header, or one the regex does not match, yields no next-page URL. -/
def parseNextLink (h : Option (List Char)) : Option (List Char) :=
  match h with
  | none => none
  | some s => findNextLink s

/-- One page response of the catalog API: the HTTP status, the
`products` field of the JSON body (`none` models a missing field, read
as `[]` by `data.products || []`) and the raw `Link` header. -/
structure PageResponse where
  status : Nat
  products : Option (List Product)
  linkHeader : Option (List Char)

/-- `response.ok` of the fetch API: status in the 2xx range. -/
def respOk (status : Nat) : Bool :=
  decide (200 ≤ status) && decide (status < 300)

/-- `getProductsForBrand` (src/server.js): the pages the upstream would
serve for the successive URLs are given as a list; a non-ok response
throws with the status (discarding everything accumulated), an ok
response contributes its products, and the loop continues exactly while
the `Link` header yields a next URL. -/
def getProductsForBrand : List PageResponse → Except Nat (List Product)
  | [] => Except.ok []
  | r :: rest =>
    if respOk r.status = true then
      match parseNextLink r.linkHeader with
      | some _ =>
        match getProductsForBrand rest with
        | Except.ok more => Except.ok (r.products.getD [] ++ more)
        | Except.error e => Except.error e
      | none => Except.ok (r.products.getD [])
    else Except.error r.status

/-- A well-formed `Link` header carrying a next-page URL. -/
def goodHeader : String :=
  "<https://shop.example/products.json?page_info=abc>; rel=\"next\""

/-- The URL the regex captures from `goodHeader`. -/
def goodUrl : String := "https://shop.example/products.json?page_info=abc"

/-- A `Link` header with no `rel=\"next\"` relation: the regex finds no
match, so pagination stops. -/
def malformedHeader : String :=
  "<https://shop.example/products.json?page_info=xyz>; rel=\"previous\""

/-- What the transport does with one send: the promise resolves with a
message id before the 10 second timer, rejects with an error, or the
timer wins the race. -/
inductive SendOutcome
  | delivered (messageId : String)
  | failed (errMsg : String)
  | timedOut
deriving DecidableEq

/-- The object `sendEmail` returns: `{ success, messageId?, error? }`. -/
structure EmailResult where
  success : Bool
  messageId : Option String
  errorMsg : Option String
deriving DecidableEq

/-- The message of the rejection the timeout timer produces. -/
def timeoutMessage : String := "Email send timeout after 10 seconds"

/-- `sendEmail` (src/server.js): the race of the send promise against
the 10 second timer runs inside try/catch, so every outcome — including
the timeout's rejection — is turned into a returned result object and
nothing escapes. -/
def sendEmail : SendOutcome → EmailResult
  | SendOutcome.delivered mid =>
    { success := true, messageId := some mid, errorMsg := none }
  | SendOutcome.failed e =>
    { success := false, messageId := none, errorMsg := some e }
  | SendOutcome.timedOut =>
    { success := false, messageId := none, errorMsg := some timeoutMessage }

/-- The webhook handler's per-brand body with the email call made
explicit: in each alert branch the handler first awaits `sendEmail`
(whose result it ignores) and then assigns the stored state. -/
def brandStepWithEmail (outcome : SendOutcome) (stockStatus : StockStatus)
    (lastState : Option NotifState) : Option NotifState × List EmailResult :=
  if stockStatus.allOOS = true ∧ lastState ≠ some NotifState.OOS then
    (some NotifState.OOS, [sendEmail outcome])
  else if stockStatus.allOOS = false ∧ 0 < stockStatus.inStockProducts ∧
      lastState = some NotifState.OOS then
    (some NotifState.IN_STOCK, [sendEmail outcome])
  else
    (lastState, [])

/-! ## Helper lemmas -/

/-- The counting loop of `checkBrandStock`, started at `n`, adds the
number of products whose summed stock is at most 0. -/
theorem foldl_count_oos (l : List Product) (n : Nat) :
    l.foldl (fun m p => if productTotalStock p ≤ 0 then m + 1 else m) n
      = n + l.countP (fun q => decide (productTotalStock q ≤ 0)) := by
  induction l generalizing n with
  | nil => simp
  | cons p ps ih =>
    by_cases h : productTotalStock p ≤ 0 <;>
      · simp [List.countP_cons, h, ih]
        try omega

/-- The out-of-stock counter agrees with counting the products whose
summed stock is at most 0. -/
theorem countOOS_eq_countP (l : List Product) :
    countOOS l = l.countP (fun q => decide (productTotalStock q ≤ 0)) := by
  simpa using foldl_count_oos l 0

/-- At most every product is counted out of stock. -/
theorem countOOS_le_length (l : List Product) : countOOS l ≤ l.length := by
  rw [countOOS_eq_countP]
  exact List.countP_le_length _

/-- The summing loop over a product's variants computes the sum of the
quantities with missing values read as 0. -/
theorem foldl_stock_sum (l : List (Option Int)) (a : Int) :
    l.foldl (fun acc v => acc + qtyOrZero v) a = a + (l.map qtyOrZero).sum := by
  induction l generalizing a with
  | nil => simp
  | cons v vs ih => simp [ih]; ring

/-- If an alert fires, the stored state before the step differed from
the state the snapshot implies. -/
theorem brandStep_fires_ne_implied (s : StockStatus) (prev : Option NotifState)
    (h : (brandStep s prev).2 ≠ []) : prev ≠ some (impliedState s) := by
  unfold brandStep at h
  split_ifs at h with h1 h2
  · rcases h1 with ⟨hA, hp⟩
    simpa [impliedState, hA] using hp
  · rcases h2 with ⟨hA, hI, hp⟩
    subst hp
    simp [impliedState, hA]
  · simp at h

/-- If the step emitted exactly a depletion alert, the stored state
after the step is 'OOS'. -/
theorem brandStep_dep_state (s : StockStatus) (prev : Option NotifState)
    (h : (brandStep s prev).2 = [Alert.depletion]) :
    (brandStep s prev).1 = some NotifState.OOS := by
  unfold brandStep at h ⊢
  split_ifs at h ⊢ <;> simp_all

/-- If the step emitted exactly a restock alert, the stored state after
the step is 'IN_STOCK'. -/
theorem brandStep_res_state (s : StockStatus) (prev : Option NotifState)
    (h : (brandStep s prev).2 = [Alert.restock]) :
    (brandStep s prev).1 = some NotifState.IN_STOCK := by
  unfold brandStep at h ⊢
  split_ifs at h ⊢ <;> simp_all

/-- From stored state 'OOS' no depletion alert fires. -/
theorem brandStep_from_oos_no_dep (s : StockStatus) :
    Alert.depletion ∉ (brandStep s (some NotifState.OOS)).2 := by
  unfold brandStep
  split_ifs with h1 h2 <;> simp_all

/-- From stored state 'IN_STOCK' no restock alert fires. -/
theorem brandStep_from_in_stock_no_res (s : StockStatus) :
    Alert.restock ∉ (brandStep s (some NotifState.IN_STOCK)).2 := by
  unfold brandStep
  split_ifs with h1 h2 <;> simp_all

/-- When the fetch of brand `b` throws, the webhook pass over any brand
list that reaches `b` behaves exactly like the pass over the brands
before `b`: the loop's surrounding try/catch ends the whole pass. -/
theorem webhookPass_error_append (fetches : Nat → Except Nat (List Product))
    (pre post : List Nat) (b : Nat) (state : Nat → Option NotifState) (e : Nat)
    (hb : fetches b = Except.error e) :
    webhookPass fetches (pre ++ b :: post) state = webhookPass fetches pre state := by
  induction pre generalizing state with
  | nil => simp [webhookPass, hb]
  | cons p ps ih =>
    simp only [List.cons_append, webhookPass]
    cases hfp : fetches p with
    | error e2 => rfl
    | ok products => simp [ih]

/-- A brand the pass never visits keeps its stored state. -/
theorem webhookPass_not_mem (fetches : Nat → Except Nat (List Product))
    (l : List Nat) (state : Nat → Option NotifState) (b : Nat) (hb : b ∉ l) :
    (webhookPass fetches l state).1 b = state b := by
  induction l generalizing state with
  | nil => rfl
  | cons p ps ih =>
    simp only [List.mem_cons, not_or] at hb
    obtain ⟨hbp, hbps⟩ := hb
    simp only [webhookPass]
    cases hfp : fetches p with
    | error e => rfl
    | ok products =>
      simp only []
      rw [ih _ hbps]
      simp [hbp]

/-! ## Claim theorems -/

/-- Claim C1: a notification fires for a brand only when the stored
state read before the decision differs from the state the new snapshot
implies; in particular, with stored state 'OOS' and a fully depleted
snapshot no second depletion fires, and after a depletion (resp.
restock) the recorded state blocks another alert of the same kind until
an opposite observation intervenes. -/
theorem notification_only_on_transition (s s2 : StockStatus) (prev : Option NotifState) :
    ((brandStep s prev).2 ≠ [] → prev ≠ some (impliedState s)) ∧
    (s.allOOS = true → brandStep s (some NotifState.OOS) = (some NotifState.OOS, [])) ∧
    ((brandStep s prev).2 = [Alert.depletion] →
      Alert.depletion ∉ (brandStep s2 (brandStep s prev).1).2) ∧
    ((brandStep s prev).2 = [Alert.restock] →
      Alert.restock ∉ (brandStep s2 (brandStep s prev).1).2) := by
  refine ⟨brandStep_fires_ne_implied s prev, ?_, ?_, ?_⟩
  · intro hA
    simp [brandStep, hA]
  · intro h
    rw [brandStep_dep_state s prev h]
    exact brandStep_from_oos_no_dep s2
  · intro h
    rw [brandStep_res_state s prev h]
    exact brandStep_from_in_stock_no_res s2

/-- Witness for C1: a first observation of a fully depleted brand fires,
and indeed the unknown stored state differs from the implied 'OOS'. -/
theorem notification_only_on_transition_witness :
    (none : Option NotifState) ≠ some (impliedState (StockStatus.mk true 1 1 0)) :=
  (notification_only_on_transition (StockStatus.mk true 1 1 0)
    (StockStatus.mk true 1 1 0) none).1 (by decide)

/-- Claim C2: with stored state other than 'OOS' and a fully depleted
snapshot the step fires exactly one depletion alert and stores 'OOS';
with stored state 'OOS', a not fully depleted snapshot and a positive
in-stock count it fires exactly one restock alert and stores
'IN_STOCK'. -/
theorem transition_rules_fire_exactly_one_alert (s : StockStatus)
    (prev : Option NotifState) :
    (s.allOOS = true → prev ≠ some NotifState.OOS →
      brandStep s prev = (some NotifState.OOS, [Alert.depletion])) ∧
    (s.allOOS = false → 0 < s.inStockProducts →
      brandStep s (some NotifState.OOS)
        = (some NotifState.IN_STOCK, [Alert.restock])) := by
  constructor
  · intro hA hp
    simp [brandStep, hA, hp]
  · intro hA hI
    simp [brandStep, hA, hI]

/-- Witness for C2: a first observation already depleted fires the
depletion alert, and a restock after 'OOS' fires the restock alert. -/
theorem transition_rules_witness :
    brandStep (StockStatus.mk true 2 2 0) none
      = (some NotifState.OOS, [Alert.depletion]) ∧
    brandStep (StockStatus.mk false 2 1 1) (some NotifState.OOS)
      = (some NotifState.IN_STOCK, [Alert.restock]) :=
  ⟨(transition_rules_fire_exactly_one_alert (StockStatus.mk true 2 2 0) none).1
      rfl (by decide),
   (transition_rules_fire_exactly_one_alert (StockStatus.mk false 2 1 1) none).2
      rfl (by decide)⟩

/-- Counterexample to claim C3: on the first observation of a brand with
stock, the webhook handler fires nothing but also records nothing — the
stored state stays absent instead of becoming 'IN_STOCK', because the
handler assigns `lastNotificationState` only inside the alert
branches. -/
theorem first_in_stock_observation_not_recorded :
    brandStep (StockStatus.mk false 1 0 1) none = (none, []) ∧
    (brandStep (StockStatus.mk false 1 0 1) none).1 ≠ some NotifState.IN_STOCK := by
  decide

/-- Claim C3 as amended: for a brand with no stored state whose snapshot
has an in-stock product, zero notifications fire; the batch monitor's
pass records the state as 'IN_STOCK', while the webhook reconciler
leaves the stored state unrecorded. -/
theorem first_in_stock_observation_silent_recording (s : StockStatus)
    (hA : s.allOOS = false) (_hI : 0 < s.inStockProducts) :
    brandStep s none = (none, []) ∧
    monitorBrandStep (some s) none = (some NotifState.IN_STOCK, []) := by
  constructor
  · simp [brandStep, hA]
  · simp [monitorBrandStep, hA]

/-- Witness for the amended C3 at a one-product in-stock snapshot. -/
theorem first_in_stock_observation_witness :
    brandStep (StockStatus.mk false 1 0 1) none = (none, []) ∧
    monitorBrandStep (some (StockStatus.mk false 1 0 1)) none
      = (some NotifState.IN_STOCK, []) :=
  first_in_stock_observation_silent_recording (StockStatus.mk false 1 0 1)
    rfl (by decide)

/-- Claim C4: the aggregator counts as out of stock exactly the products
whose variant quantities, summed with missing values read as 0, are at
most 0; variant lists [-3, 2], [0] and [1] sum to -1, 0 and 1, so the
first two count as out of stock and the third as in stock. -/
theorem product_out_of_stock_iff_sum_nonpos (products : List Product) (p : Product) :
    (checkBrandStock products).oosProducts
      = products.countP (fun q => decide (productTotalStock q ≤ 0)) ∧
    productTotalStock p = (p.variants.map qtyOrZero).sum ∧
    qtyOrZero none = 0 ∧
    productTotalStock (Product.mk [some (-3), some 2]) = -1 ∧
    decide (productTotalStock (Product.mk [some (-3), some 2]) ≤ 0) = true ∧
    decide (productTotalStock (Product.mk [some 0]) ≤ 0) = true ∧
    decide (productTotalStock (Product.mk [some 1]) ≤ 0) = false := by
  refine ⟨?_, ?_, rfl, by decide, by decide, by decide, by decide⟩
  · unfold checkBrandStock
    by_cases h : products.length = 0
    · rw [List.length_eq_zero] at h
      subst h
      simp
    · simp [h, countOOS_eq_countP]
  · simpa [productTotalStock] using foldl_stock_sum p.variants 0

/-- Claim C5: the verifier returns true exactly when the claimed
signature equals the base64 HMAC-SHA256 digest of the exact raw body
bytes, and returns false — never raising — when the header is absent,
the body is absent, or the compared values differ in length. -/
theorem verifyWebhook_spec (hmacBase64 : String → List Nat → String)
    (secret : String) (raw : List Nat) (claimed : String)
    (body : Option (List Nat)) :
    verifyWebhook hmacBase64 secret none body = false ∧
    verifyWebhook hmacBase64 secret (some claimed) none = false ∧
    verifyWebhook hmacBase64 secret (some claimed) (some raw)
      = decide (claimed = hmacBase64 secret raw) ∧
    (claimed.data.length ≠ (hmacBase64 secret raw).data.length →
      verifyWebhook hmacBase64 secret (some claimed) (some raw) = false) := by
  have h3 : verifyWebhook hmacBase64 secret (some claimed) (some raw)
      = decide (claimed = hmacBase64 secret raw) := by
    show (match timingSafeEqual (hmacBase64 secret raw).data claimed.data with
      | Except.ok r => r
      | Except.error _ => false) = decide (claimed = hmacBase64 secret raw)
    unfold timingSafeEqual
    by_cases h : (hmacBase64 secret raw).data.length = claimed.data.length
    · rw [if_pos h]
      show decide ((hmacBase64 secret raw).data = claimed.data)
        = decide (claimed = hmacBase64 secret raw)
      rw [decide_eq_decide]
      constructor
      · intro hd
        exact (String.ext hd).symm
      · intro he
        rw [he]
    · rw [if_neg h]
      show false = decide (claimed = hmacBase64 secret raw)
      have hne : claimed ≠ hmacBase64 secret raw := by
        intro he
        apply h
        rw [he]
      simp [hne]
  refine ⟨rfl, rfl, h3, ?_⟩
  · intro hlen
    rw [h3, decide_eq_false_iff_not]
    intro he
    apply hlen
    rw [he]

/-- Witness for C5: with a digest of length 3 and a claimed signature of
length 1, verification returns false. -/
theorem verifyWebhook_witness :
    verifyWebhook (fun _ _ => String.mk ['a', 'b', 'c']) (String.mk [])
      (some (String.mk ['x'])) (some []) = false :=
  (verifyWebhook_spec (fun _ _ => String.mk ['a', 'b', 'c']) (String.mk [])
    [] (String.mk ['x']) none).2.2.2 (by decide)

/-- Counterexample to claim C6: with brands 0, 1, 2 where brand 1's
fetch throws and brands 0 and 2 each have one out-of-stock product, the
webhook pass alerts and records for brand 0 but never reaches brand 2:
brand 2's state stays absent and no depletion fires for it, because the
try/catch surrounds the whole brand loop. -/
theorem upstream_error_halts_pass_cex :
    (webhookPass fetchesCex [0, 1, 2] (fun _ => none)).1 2 = none ∧
    (webhookPass fetchesCex [0, 1, 2] (fun _ => none)).2
      = [(0, Alert.depletion)] := by
  decide

/-- Claim C6 as amended: an upstream error for one brand is caught at
the pass level, not per brand: brands before the failing one complete
and keep their updates, but the failing brand and every brand after it
are not reconciled in that pass, and the failing brand's stored state
retains its previous value. -/
theorem upstream_error_aborts_remaining_brands
    (fetches : Nat → Except Nat (List Product)) (pre post : List Nat) (b : Nat)
    (state : Nat → Option NotifState) (e : Nat)
    (hb : fetches b = Except.error e) (hpre : b ∉ pre) :
    webhookPass fetches (pre ++ b :: post) state = webhookPass fetches pre state ∧
    (webhookPass fetches (pre ++ b :: post) state).1 b = state b := by
  have h1 := webhookPass_error_append fetches pre post b state e hb
  exact ⟨h1, by rw [h1, webhookPass_not_mem fetches pre state b hpre]⟩

/-- Witness for the amended C6: in the three-brand environment the pass
over [0, 1, 2] equals the pass over [0] and brand 1 keeps its previous
(absent) state. -/
theorem upstream_error_witness :
    webhookPass fetchesCex ([0] ++ 1 :: [2]) (fun _ => none)
      = webhookPass fetchesCex [0] (fun _ => none) ∧
    (webhookPass fetchesCex ([0] ++ 1 :: [2]) (fun _ => none)).1 1 = none :=
  upstream_error_aborts_remaining_brands fetchesCex [0] [2] 1 (fun _ => none)
    500 rfl (by decide)

/-- Claim C7: every snapshot satisfies
`oosProducts + inStockProducts = totalProducts`, its `allOOS` flag holds
exactly when there is at least one product and all of them are out of
stock, and the empty product list never yields `allOOS = true`. -/
theorem snapshot_counts_invariant (products : List Product) :
    (checkBrandStock products).oosProducts + (checkBrandStock products).inStockProducts
      = (checkBrandStock products).totalProducts ∧
    (checkBrandStock products).allOOS
      = decide (0 < (checkBrandStock products).totalProducts ∧
          (checkBrandStock products).oosProducts
            = (checkBrandStock products).totalProducts) ∧
    (checkBrandStock []).allOOS = false := by
  unfold checkBrandStock
  by_cases h : products.length = 0
  · simp [h]
  · have hle := countOOS_le_length products
    simp only [h, if_neg, if_false]
    refine ⟨by omega, ?_, by simp⟩
    rw [decide_eq_decide]
    omega

/-- Claim C8: the fetcher accumulates the pages' products into one
list, continuing exactly while the `Link` header's regex yields a next
URL — an absent header, or one without a `rel="next"` relation, stops
the loop; a first page with zero products yields the empty list; and a
non-2xx response anywhere aborts the whole fetch with the response's
status, discarding every accumulated product. -/
theorem getProductsForBrand_pagination_spec (r : PageResponse)
    (rest : List PageResponse) (c : List Char) :
    (respOk r.status = false → getProductsForBrand (r :: rest) = Except.error r.status) ∧
    (respOk r.status = true → parseNextLink r.linkHeader = none →
      getProductsForBrand (r :: rest) = Except.ok (r.products.getD [])) ∧
    (respOk r.status = true → parseNextLink r.linkHeader = some c →
      getProductsForBrand (r :: rest)
        = Except.map (fun more => r.products.getD [] ++ more)
            (getProductsForBrand rest)) ∧
    parseNextLink none = none ∧
    findNextLink goodHeader.data = some goodUrl.data ∧
    findNextLink malformedHeader.data = none ∧
    getProductsForBrand [PageResponse.mk 200 (some []) none] = Except.ok [] := by
  refine ⟨?_, ?_, ?_, rfl, by decide, by decide, rfl⟩
  · intro h
    simp [getProductsForBrand, h]
  · intro h hp
    simp [getProductsForBrand, h, hp]
  · intro h hp
    simp only [getProductsForBrand, h, hp, if_true]
    cases getProductsForBrand rest <;> rfl

/-- Witness for C8: a single page with status 500 aborts the fetch with
that status. -/
theorem getProductsForBrand_error_witness :
    getProductsForBrand [PageResponse.mk 500 none none] = Except.error 500 :=
  (getProductsForBrand_pagination_spec (PageResponse.mk 500 none none) [] []).1 rfl

/-- Claim C9: the notifier is a total function into result objects — a
delivered send yields success, a transport failure or the 10 second
timeout yields a failure result rather than an exception — and the
state the reconciliation step records does not depend on the
notification's outcome. -/
theorem sendEmail_result_and_no_rollback (mid e : String) (o o2 : SendOutcome)
    (s : StockStatus) (prev : Option NotifState) :
    (sendEmail (SendOutcome.delivered mid)).success = true ∧
    (sendEmail (SendOutcome.failed e)).success = false ∧
    (sendEmail SendOutcome.timedOut).success = false ∧
    (sendEmail SendOutcome.timedOut).errorMsg = some timeoutMessage ∧
    (brandStepWithEmail o s prev).1 = (brandStepWithEmail o2 s prev).1 ∧
    (brandStepWithEmail o s prev).1 = (brandStep s prev).1 := by
  refine ⟨rfl, rfl, rfl, rfl, ?_, ?_⟩
  · unfold brandStepWithEmail
    split_ifs <;> rfl
  · unfold brandStepWithEmail brandStep
    split_ifs <;> rfl

/-- Claim C10: a fetch with zero products yields the empty snapshot,
whose `allOOS = false` blocks the depletion rule and whose
`inStockProducts = 0` blocks the restock rule, so from stored state
'OOS' the step fires nothing and leaves the state at 'OOS'. -/
theorem empty_snapshot_with_oos_state_frame :
    (checkBrandStock []).allOOS = false ∧
    (checkBrandStock []).inStockProducts = 0 ∧
    brandStep (checkBrandStock []) (some NotifState.OOS)
      = (some NotifState.OOS, []) := by
  decide

end BrandMonitor
